import Mathlib

/-!
Shallow embedding of the metemcyber client core: `client_model.py`,
`ctitoken.py` and `plugins/standalone_solver.py`.

Python strings are modelled as `List Char`, Python dict/TSV records as
structures, a raised exception as `Except.error` carrying `str(err)`,
and side effects (ledger transactions, webhook calls, file writes) as
explicit action traces or state threading.
-/

namespace Metemcyber

/-! ## uuid helpers (client_model.py, lines 70-81) -/

/-- Python `uuid_formatter(unformatted_uuid)`: returns the empty string unless the
input has length 32, otherwise inserts dashes in the 8-4-4-4-12 pattern
(`s[0:8] + '-' + s[8:12] + '-' + s[12:16] + '-' + s[16:20] + '-' + s[20:]`). -/
def uuid_formatter (unformatted_uuid : List Char) : List Char :=
  if unformatted_uuid.length ≠ 32 then []
  else
    unformatted_uuid.take 8 ++ ['-'] ++ (unformatted_uuid.drop 8).take 4 ++ ['-'] ++
    (unformatted_uuid.drop 12).take 4 ++ ['-'] ++
    (unformatted_uuid.drop 16).take 4 ++ ['-'] ++ unformatted_uuid.drop 20

/-- Python `uuid_to_asset_id(formatted_uuid)`: raises `ValueError` unless the input
has length 36, otherwise removes every `-` (Python `str.replace('-', '')`)
and appends `#test`. -/
def uuid_to_asset_id (formatted_uuid : List Char) : Except String (List Char) :=
  if formatted_uuid.length ≠ 36 then .error "The uuid cannot translation."
  else .ok (formatted_uuid.filter (fun c => c ≠ '-') ++ "#test".toList)

/-! ## LocalHttpServer port scan (standalone_solver.py, lines 28-85) -/

def LISTEN_PORT : Nat := 50080

def LISTEN_PORT_RANGE : Nat := 1000

/-- Outcome of attempting to bind a `TCPServer` on one port. -/
inductive PortStatus where
  | free : PortStatus
  | inUse : PortStatus
  | otherError (msg : String) : PortStatus
deriving DecidableEq, Repr

/-- The body of `LocalHttpServer.run`'s `for` loop: try `fuel` consecutive
ports starting at `p`; a port whose bind raises `OSError` with
`errno == 98` (address already in use) is skipped via `continue`, any
other `OSError` propagates, and when the loop exhausts the range the
final `raise Exception(...)` fires. -/
def runScan (status : Nat → PortStatus) : Nat → Nat → Except String Nat
  | _, 0 => .error "cannot assign listen port for httpd"
  | p, fuel + 1 =>
    match status p with
    | .free => .ok p
    | .inUse => runScan status (p + 1) fuel
    | .otherError msg => .error msg

/-- Method `LocalHttpServer.run`: scans `range(LISTEN_PORT, LISTEN_PORT +
LISTEN_PORT_RANGE + 1)`, i.e. the `LISTEN_PORT_RANGE + 1` ports from
`LISTEN_PORT` to `LISTEN_PORT + LISTEN_PORT_RANGE` inclusive, and binds
the first free one. -/
def LocalHttpServer.run (status : Nat → PortStatus) : Except String Nat :=
  runScan status LISTEN_PORT (LISTEN_PORT_RANGE + 1)

/-! ## Registered-token registry (client_model.py, lines 545-575)

The TSV file `workspace/registered_token.tsv` is modelled at the record
level: `none` is a missing file, `some rows` a file holding a header line
and one row per record (what `csv.DictWriter.writerow` appends and
`csv.DictReader` yields back). -/

/-- One row of `registered_token.tsv`, with the `fieldnames` of
`save_registered_token` (`extrasaction='ignore'` drops all other keys of
the metadata dict). -/
structure TokenRecord where
  uuid : String
  tokenAddress : String
  title : String
  price : Int
  operator : String
  quantity : Int
deriving DecidableEq, Repr

/-- Method `Player.save_registered_token(cti_metadata)`: opens the TSV in append
mode (creating it, with a header line, when absent) and appends one row. -/
def save_registered_token (cti_metadata : TokenRecord)
    (file : Option (List TokenRecord)) : Option (List TokenRecord) :=
  match file with
  | none => some [cti_metadata]
  | some rows => some (rows ++ [cti_metadata])

/-- Method `Player.fetch_registered_token()`: reads every row of the TSV; a
missing file (`FileNotFoundError`) yields the empty list. -/
def fetch_registered_token (file : Option (List TokenRecord)) : List TokenRecord :=
  match file with
  | none => []
  | some rows => rows

/-- Iterated `save_registered_token`, standing for any number of later
appends (in this or a later process run — the file is the only state). -/
def saveMany (metas : List TokenRecord) (file : Option (List TokenRecord)) :
    Option (List TokenRecord) :=
  metas.foldl (fun acc m => save_registered_token m acc) file

/-! ## Dissemination loop (client_model.py, lines 446-532) -/

/-- One `*.json` file under `MISP_DATAFILE_PATH`: its stem (`uuid`) and the
`Event.info` field, whose absence raises the `KeyError` the loop catches. -/
structure MispFile where
  uuid : String
  eventInfo : Option String
deriving DecidableEq, Repr

/-- The externally visible effects of one pass of
`disseminate_token_from_mispdata`: ledger transactions (token creation,
catalog registration, consignment, challenge acceptance), the symlink
attempt of `create_asset_content`, and the registry append. -/
inductive DissemAction where
  | createToken (uuid : String)
  | symlink (uuid : String)
  | registerCatalog (uuid : String)
  | saveRegistered (uuid : String)
  | consign (uuid : String)
  | acceptChallenge (uuid : String)
deriving DecidableEq, Repr

/-- The uuid a `DissemAction` concerns. -/
def DissemAction.uuidOf : DissemAction → String
  | .createToken u => u
  | .symlink u => u
  | .registerCatalog u => u
  | .saveRegistered u => u
  | .consign u => u
  | .acceptChallenge u => u

/-- Effects of `disseminate_new_token` → `disseminate_token` →
`create_asset_content` / `register_catalog` / `save_registered_token`
for one MISP file, in source order, plus the optional consignment and
auto-accept steps of the caller. -/
def disseminateOne (uuid : String) (num_consign : Int) (auto_accept : Bool) :
    List DissemAction :=
  [DissemAction.createToken uuid, DissemAction.symlink uuid,
   DissemAction.registerCatalog uuid, DissemAction.saveRegistered uuid] ++
  (if num_consign > 0 then [DissemAction.consign uuid] else []) ++
  (if auto_accept then [DissemAction.acceptChallenge uuid] else [])

/-- Method `Player.disseminate_token_from_mispdata`: computes `registered_uuid`
once from `fetch_registered_token()`, then for each MISP json file skips
it (`continue`) when its stem is already registered; otherwise it builds
the metadata (a missing `Event.info` raises `KeyError` before any ledger
action, caught and logged) and disseminates. -/
def disseminate_token_from_mispdata (registered_token : List TokenRecord)
    (files : List MispFile) (num_consign : Int) (auto_accept : Bool) :
    List DissemAction :=
  let registered_uuid := registered_token.map (·.uuid)
  files.foldr
    (fun f acc =>
      (if f.uuid ∈ registered_uuid then []
       else match f.eventInfo with
         | none => []
         | some _ => disseminateOne f.uuid num_consign auto_accept) ++ acc)
    []

/-! ## CTIToken transactions and Player wrappers
(ctitoken.py lines 37-52, client_model.py lines 727-739) -/

/-- The transaction receipt returned by `waitForTransactionReceipt`. -/
structure TxReceipt where
  status : Nat
  gasUsed : Nat
deriving DecidableEq, Repr

/-- Method `CTIToken.send_token(dest, amount, data)`: submits the `send` call and
raises `ValueError('Transaction failed: send')` when the receipt status
is not 1. -/
def CTIToken.send_token (tx_receipt : TxReceipt) : Except String Unit :=
  if tx_receipt.status ≠ 1 then .error "Transaction failed: send" else .ok ()

/-- Method `CTIToken.burn_token(amount, data)`: submits the `burn` call and raises
`ValueError('Transaction failed: burn')` when the receipt status is
not 1. -/
def CTIToken.burn_token (tx_receipt : TxReceipt) : Except String Unit :=
  if tx_receipt.status ≠ 1 then .error "Transaction failed: burn" else .ok ()

/-- A side effect of the `Player`-level wrappers: the cache reconciliation
`self.inventory.update_balanceof_myself(token_address)`. -/
inductive PlayerAction where
  | updateBalance (token_address : String)
deriving DecidableEq, Repr

/-- Method `Player.send_token(token_address, target_address, amount)`: asserts its
arguments, performs the token `send` (whose failed receipt raises), and
only then manually refreshes the cached balance. The returned trace
lists the cache reconciliations that were reached. -/
def Player.send_token (tx_receipt : TxReceipt) (token_address target_address : String)
    (amount : Int) : Except String (List PlayerAction) :=
  if token_address = "" ∨ target_address = "" ∨ ¬amount > 0 then
    .error "AssertionError"
  else
    match CTIToken.send_token tx_receipt with
    | .error e => .error e
    | .ok _ => .ok [PlayerAction.updateBalance token_address]

/-- Method `Player.burn_token(token_address, amount, data)`: asserts its arguments,
performs the token `burn`, and only then refreshes the cached balance. -/
def Player.burn_token (tx_receipt : TxReceipt) (token_address : String)
    (amount : Int) : Except String (List PlayerAction) :=
  if token_address = "" ∨ ¬amount > 0 then
    .error "AssertionError"
  else
    match CTIToken.burn_token tx_receipt with
    | .error e => .error e
    | .ok _ => .ok [PlayerAction.updateBalance token_address]

/-! ## Seeker-side answer reception (client_model.py, lines 604-666) -/

def DOWNLOADED_CTI_PATH : String := "./download"

/-- The webhook payload dict generated at `Solver.webhook()`: either key may
be missing (`KeyError` in the first `try` block). -/
structure AnswerData where
  download_url : Option String
  token_address : Option String
deriving DecidableEq, Repr

/-- Whether a payload passes the first `try` block of
`receive_challenge_answer`: both keys present with non-empty values. -/
def wellFormedAnswer (data : AnswerData) : Bool :=
  match data.download_url, data.token_address with
  | some download_url, some token_address =>
    decide (download_url.length ≠ 0) && decide (token_address.length ≠ 0)
  | _, _ => false

/-- The local filesystem, path → contents; a write is an overwriting
association (OS-level write failures are outside the model). -/
def FileSys : Type := List (String × String)

def writeFile (fs : FileSys) (path contents : String) : FileSys :=
  (path, contents) :: fs

def readFile (fs : FileSys) (path : String) : Option String :=
  (fs.find? (fun e => e.1 = path)).map (·.2)

/-- Method `Player._save_download_url(token_address, download_url)`: writes
`<DOWNLOADED_CTI_PATH>/<token_address>.url` containing exactly the
download URL. -/
def save_download_url (fs : FileSys) (token_address download_url : String) : FileSys :=
  writeFile fs (DOWNLOADED_CTI_PATH ++ "/" ++ token_address ++ ".url") download_url

/-- Method `Player.receive_challenge_answer(data)`: a payload missing either key or
carrying an empty value fails the first `try` block and returns
`(False, msg)`; otherwise the artifact is fetched from `download_url`
(`dl` is the outcome of that `GET`): on failure the URL is persisted by
`_save_download_url` and the call still returns `True`; on success the
bytes are stored under `<token_address>.json` and the call returns
`True`. Returns the success flag and the updated filesystem. -/
def receive_challenge_answer (fs : FileSys) (data : AnswerData)
    (dl : Except String String) : Bool × FileSys :=
  match data.download_url, data.token_address with
  | some download_url, some token_address =>
    if download_url.length = 0 ∨ token_address.length = 0 then (false, fs)
    else
      match dl with
      | .error _ => (true, save_download_url fs token_address download_url)
      | .ok rdata =>
        (true, writeFile fs (DOWNLOADED_CTI_PATH ++ "/" ++ token_address ++ ".json") rdata)
  | _, _ => (false, fs)

/-! ## Config address validation (client_model.py, lines 232-243) -/

/-- Python `str.strip()`: removes leading and trailing whitespace. -/
def pyStrip (s : String) : String :=
  ⟨((s.data.dropWhile (·.isWhitespace)).reverse.dropWhile (·.isWhitespace)).reverse⟩

/-- The two `web3` address predicates `_fix_config_address` consults.
`eth_utils` guarantees that a mixed-case checksum address is an address
and is not a blank string; `valid` records the fragment of that contract
the function relies on. -/
structure Web3Addr where
  isChecksumAddress : String → Bool
  isAddress : String → Bool

def Web3Addr.valid (w : Web3Addr) : Prop :=
  ∀ s, w.isChecksumAddress s = true → pyStrip s ≠ ""

/-- Method `Player._fix_config_address(target)`: `None` or a blank string yields
`None` with no log output; a checksum address is returned unchanged; any
other value yields `None` after an error line (`not a mixed-case
checksum address` or `not a valid address`) and the warning `ignored
above config param`. The second component is the emitted log lines. -/
def fix_config_address (w : Web3Addr) (target : Option String) :
    Option String × List String :=
  match target with
  | none => (none, [])
  | some t =>
    if pyStrip t = "" then (none, [])
    else if w.isChecksumAddress t then (some t, [])
    else if w.isAddress t then
      (none, ["not a mixed-case checksum address", "ignored above config param"])
    else
      (none, ["not a valid address", "ignored above config param"])

/-! ## Solver.process_challenge (standalone_solver.py, lines 111-147) -/

/-- Outcome of one step inside the `try` block: normal completion or a
raised exception carrying its `str(err)`. -/
inductive StepResult where
  | ok : StepResult
  | raised (msg : String) : StepResult
deriving DecidableEq, Repr

/-- The environment one challenge event executes against: whether
`accept_task` succeeds, and the outcomes of the URL computation
(`create_misp_download_url`), the payload decoding
(`Web3.toText(event['args']['data'])`) and the webhook delivery. -/
structure ChallengeEnv where
  acceptOk : Bool
  urlStep : StepResult
  decodeStep : StepResult
  webhookStep : StepResult
deriving DecidableEq, Repr

/-- The externally visible steps of `Solver.process_challenge`:
the `accept_task` ledger call, reaching the URL computation, the webhook
delivery attempt, and the `finish_task` ledger call with its data. -/
inductive SolverAction where
  | acceptTask (task_id : Nat)
  | computeUrl (token_address : String)
  | webhookCall (token_address : String)
  | finishTask (task_id : Nat) (data : String)
deriving DecidableEq, Repr

/-- The `try` block of `process_challenge` (steps 2-3): the actions reached,
and `some msg` when the first failing step raised with message `msg`.
The URL computation runs first, then the payload decoding, then the
webhook attempt. -/
def tryPhase (env : ChallengeEnv) (token_address : String) :
    List SolverAction × Option String :=
  match env.urlStep with
  | .raised m => ([SolverAction.computeUrl token_address], some m)
  | .ok =>
    match env.decodeStep with
    | .raised m => ([SolverAction.computeUrl token_address], some m)
    | .ok =>
      match env.webhookStep with
      | .raised m =>
        ([SolverAction.computeUrl token_address, SolverAction.webhookCall token_address],
         some m)
      | .ok =>
        ([SolverAction.computeUrl token_address, SolverAction.webhookCall token_address],
         none)

/-- Method `Solver.process_challenge(token_address, event)`: accepts the task and
returns early when `accept_task` fails; otherwise runs the `try` block
with `data = ''`, on exception sets `data = str(err)`, and in the
`finally` clause always calls `finish_task(task_id, data)`. -/
def process_challenge (env : ChallengeEnv) (task_id : Nat) (token_address : String) :
    List SolverAction :=
  SolverAction.acceptTask task_id ::
    (if env.acceptOk then
      let (acts, err) := tryPhase env token_address
      acts ++ [SolverAction.finishTask task_id (match err with | some m => m | none => "")]
    else [])

/-- Number of `finish_task` calls in a trace. -/
def finishCount (trace : List SolverAction) : Nat :=
  trace.countP (fun a => match a with | .finishTask _ _ => true | _ => false)

/-- Number of webhook delivery attempts in a trace. -/
def webhookCount (trace : List SolverAction) : Nat :=
  trace.countP (fun a => match a with | .webhookCall _ => true | _ => false)

/-- Number of publish (download-URL computation) attempts in a trace. -/
def publishCount (trace : List SolverAction) : Nat :=
  trace.countP (fun a => match a with | .computeUrl _ => true | _ => false)

/-- The data of the first `finish_task` call in a trace, when any. -/
def finishData (trace : List SolverAction) : Option String :=
  match trace.findSome? (fun a => match a with | .finishTask _ d => some d | _ => none) with
  | some d => some d
  | none => none

/-- Whether the `try` block of `process_challenge` raised. -/
def phaseRaised (env : ChallengeEnv) : Bool :=
  env.urlStep ≠ .ok ∨ env.decodeStep ≠ .ok ∨ env.webhookStep ≠ .ok

/-! ## Download URL construction (standalone_solver.py, lines 142-147) -/

/-- The mutable state of a `LocalHttpServer` relevant to URL construction:
the port the `run` loop last attempted (and, once bound, serves on). -/
structure LocalHttpServerState where
  identity : String
  port : Nat
deriving DecidableEq, Repr

/-- The server state after `run` has completed binding: `self.port` is the
loop variable at the moment the bind succeeded. -/
def LocalHttpServer.afterBind (status : Nat → PortStatus) (identity : String) :
    Except String LocalHttpServerState :=
  match LocalHttpServer.run status with
  | .ok p => .ok { identity := identity, port := p }
  | .error e => .error e

/-- Method `Solver.create_misp_download_url(_account_id, cti_address)`: formats
`http://<hostname>:<fileserver.port>/<cti_address>`. -/
def create_misp_download_url (hostname : String) (fileserver : LocalHttpServerState)
    (cti_address : String) : String :=
  "http://" ++ hostname ++ ":" ++ toString fileserver.port ++ "/" ++ cti_address

/-! ## Theorems -/

/-- C1: for a challenge event whose accept step succeeds, `finish_task` is
invoked exactly once whatever the URL computation, payload decoding and
webhook delivery do; when the accept step fails, `finish_task` is never
invoked and no publish or webhook step is attempted. -/
theorem process_challenge_finalize_once (env : ChallengeEnv) (task_id : Nat)
    (token_address : String) :
    finishCount (process_challenge env task_id token_address)
      = (if env.acceptOk then 1 else 0) ∧
    (env.acceptOk = false →
      finishCount (process_challenge env task_id token_address) = 0 ∧
      publishCount (process_challenge env task_id token_address) = 0 ∧
      webhookCount (process_challenge env task_id token_address) = 0) := by
  obtain ⟨a, u, d, w⟩ := env
  cases a <;> cases u <;> cases d <;> cases w <;>
    simp [process_challenge, tryPhase, finishCount, publishCount, webhookCount,
      List.countP_cons, List.countP_nil]

/-- Closed instance of `process_challenge_finalize_once` at a rejected
accept step. -/
theorem process_challenge_finalize_once_witness :
    finishCount (process_challenge ⟨false, .ok, .ok, .ok⟩ 7 "0xAA") = 0 ∧
    publishCount (process_challenge ⟨false, .ok, .ok, .ok⟩ 7 "0xAA") = 0 ∧
    webhookCount (process_challenge ⟨false, .ok, .ok, .ok⟩ 7 "0xAA") = 0 :=
  (process_challenge_finalize_once ⟨false, .ok, .ok, .ok⟩ 7 "0xAA").2 rfl

/-- C2 counterexample: a webhook failure whose exception stringifies to the
empty string (`str(Exception()) == ''`) still reaches `finish_task`, but
the data it closes the task with is the empty string — not a non-empty
error string as claimed. -/
theorem process_challenge_empty_error_counterexample :
    phaseRaised ⟨true, .ok, .ok, .raised ""⟩ = true ∧
    finishData (process_challenge ⟨true, .ok, .ok, .raised ""⟩ 7 "0xAA")
      = some "" := by
  constructor <;> rfl

/-- C2 (amended): for every accepted task, when the publish/webhook phase
raises an exception the solver still closes the task by calling
`finish_task` with the exception's message string (non-empty exactly
when `str(err)` is); when the phase completes without exception,
`finish_task` is called with the empty string. -/
theorem process_challenge_finish_data (env : ChallengeEnv) (task_id : Nat)
    (token_address : String) (hacc : env.acceptOk = true) :
    (∀ m, (tryPhase env token_address).2 = some m →
      finishData (process_challenge env task_id token_address) = some m) ∧
    ((tryPhase env token_address).2 = none →
      finishData (process_challenge env task_id token_address) = some "") := by
  obtain ⟨a, u, d, w⟩ := env
  subst hacc
  cases u <;> cases d <;> cases w <;>
    simp [process_challenge, tryPhase, finishData, List.findSome?]

/-- Closed instance of `process_challenge_finish_data`: a webhook failure
with message `boom` closes the task with data `boom`. -/
theorem process_challenge_finish_data_witness :
    finishData (process_challenge ⟨true, .ok, .ok, .raised "boom"⟩ 7 "0xAA")
      = some "boom" :=
  (process_challenge_finish_data ⟨true, .ok, .ok, .raised "boom"⟩ 7 "0xAA" rfl).1
    "boom" rfl

/-- When `k < fuel` ports starting at `p` are scanned, the first `k` are in
use and port `p + k` is free, the scan binds `p + k`. -/
theorem runScan_ok (status : Nat → PortStatus) :
    ∀ (fuel k p : Nat), k < fuel →
      (∀ i, i < k → status (p + i) = .inUse) →
      status (p + k) = .free →
      runScan status p fuel = .ok (p + k) := by
  intro fuel
  induction fuel with
  | zero => intro k p hk _ _; omega
  | succ n ih =>
    intro k p hk hocc hfree
    cases k with
    | zero =>
      simp only [Nat.add_zero] at hfree
      simp [runScan, hfree]
    | succ m =>
      have h0 : status p = .inUse := by
        have := hocc 0 (by omega)
        simpa using this
      have htail := ih m (p + 1) (by omega)
        (fun i hi => by
          have := hocc (i + 1) (by omega)
          rwa [show p + (i + 1) = (p + 1) + i by omega] at this)
        (by rwa [show p + (m + 1) = (p + 1) + m by omega] at hfree)
      rw [show p + (m + 1) = (p + 1) + m by omega]
      simpa [runScan, h0] using htail

/-- When all `fuel` scanned ports are in use, the scan raises the
no-port-available error. -/
theorem runScan_exhausted (status : Nat → PortStatus) :
    ∀ (fuel p : Nat), (∀ i, i < fuel → status (p + i) = .inUse) →
      runScan status p fuel = .error "cannot assign listen port for httpd" := by
  intro fuel
  induction fuel with
  | zero => intro p _; rfl
  | succ n ih =>
    intro p hocc
    have h0 : status p = .inUse := by
      have := hocc 0 (by omega)
      simpa using this
    have htail := ih (p + 1)
      (fun i hi => by
        have := hocc (i + 1) (by omega)
        rwa [show p + (i + 1) = (p + 1) + i by omega] at this)
    simpa [runScan, h0] using htail

/-- C3: `LocalHttpServer.run` scans sequentially from `LISTEN_PORT`,
skipping ports whose bind fails with address-already-in-use: when the
first `k` ports are occupied and `LISTEN_PORT + k` (still within the
fixed range) is free it binds `LISTEN_PORT + k`, and when every port of
the range `[LISTEN_PORT, LISTEN_PORT + LISTEN_PORT_RANGE]` is occupied
it raises the no-port-available error instead of binding. -/
theorem run_binds_first_free (status : Nat → PortStatus) :
    (∀ k, k ≤ LISTEN_PORT_RANGE →
      (∀ i, i < k → status (LISTEN_PORT + i) = .inUse) →
      status (LISTEN_PORT + k) = .free →
      LocalHttpServer.run status = .ok (LISTEN_PORT + k)) ∧
    ((∀ i, i ≤ LISTEN_PORT_RANGE → status (LISTEN_PORT + i) = .inUse) →
      LocalHttpServer.run status = .error "cannot assign listen port for httpd") := by
  constructor
  · intro k hk hocc hfree
    exact runScan_ok status (LISTEN_PORT_RANGE + 1) k LISTEN_PORT (by omega) hocc hfree
  · intro hocc
    exact runScan_exhausted status (LISTEN_PORT_RANGE + 1) LISTEN_PORT
      (fun i hi => hocc i (by omega))

/-- Closed instance of `run_binds_first_free`: with ports 50080 and 50081
occupied the server binds 50082, and with every port occupied it fails. -/
theorem run_binds_first_free_witness :
    LocalHttpServer.run (fun p => if p < 50082 then PortStatus.inUse else .free)
      = .ok 50082 ∧
    LocalHttpServer.run (fun _ => PortStatus.inUse)
      = .error "cannot assign listen port for httpd" := by
  constructor
  · have h := (run_binds_first_free
      (fun p => if p < 50082 then PortStatus.inUse else .free)).1
      2 (by decide) (by decide) (by decide)
    simpa using h
  · exact (run_binds_first_free (fun _ => PortStatus.inUse)).2 (fun i _ => rfl)

/-- Appending to the registry only extends its rows. -/
theorem saveMany_extends (later : List TokenRecord) :
    ∀ rows : List TokenRecord,
      ∃ ext, saveMany later (some rows) = some (rows ++ ext) := by
  induction later with
  | nil => intro rows; exact ⟨[], by simp [saveMany]⟩
  | cons m ms ih =>
    intro rows
    obtain ⟨ext, hext⟩ := ih (rows ++ [m])
    refine ⟨[m] ++ ext, ?_⟩
    have hstep : saveMany (m :: ms) (some rows) = saveMany ms (some (rows ++ [m])) := rfl
    rw [hstep, hext, List.append_assoc]

/-- C4: after `save_registered_token` of a record with a given uuid, every
subsequent `fetch_registered_token` — after any number of later appends,
in this or a later process run — yields a sequence containing a record
with that uuid. -/
theorem save_registered_token_durable (file : Option (List TokenRecord))
    (meta : TokenRecord) (later : List TokenRecord) :
    (fetch_registered_token (saveMany later (save_registered_token meta file))).any
      (fun r => r.uuid == meta.uuid) = true := by
  have hsave : save_registered_token meta file
      = some (fetch_registered_token file ++ [meta]) := by
    cases file <;> rfl
  obtain ⟨ext, hext⟩ := saveMany_extends later (fetch_registered_token file ++ [meta])
  rw [hsave, hext]
  simp [fetch_registered_token, List.any_eq_true]

/-- Every action `disseminateOne` emits concerns its own uuid, so filtering
for a different uuid leaves nothing. -/
theorem filter_disseminateOne_ne (uuid u : String) (num_consign : Int)
    (auto_accept : Bool) (h : uuid ≠ u) :
    (disseminateOne uuid num_consign auto_accept).filter
      (fun a => a.uuidOf == u) = [] := by
  cases auto_accept <;> by_cases hn : num_consign > 0 <;>
    simp [disseminateOne, DissemAction.uuidOf, hn, h]

/-- C5: dissemination from MISP data is idempotent per uuid — for every uuid
already present in the registered-token registry the loop performs no
ledger transaction, no symlink attempt and no registry append for that
uuid: its action trace, filtered to that uuid, is empty. -/
theorem disseminate_skips_registered (registered_token : List TokenRecord)
    (files : List MispFile) (num_consign : Int) (auto_accept : Bool)
    (u : String) (hu : u ∈ registered_token.map (·.uuid)) :
    (disseminate_token_from_mispdata registered_token files num_consign
        auto_accept).filter (fun a => a.uuidOf == u) = [] := by
  induction files with
  | nil => rfl
  | cons f fs ih =>
    have hstep : disseminate_token_from_mispdata registered_token (f :: fs)
        num_consign auto_accept
        = (if f.uuid ∈ registered_token.map (·.uuid) then []
           else match f.eventInfo with
             | none => []
             | some _ => disseminateOne f.uuid num_consign auto_accept)
          ++ disseminate_token_from_mispdata registered_token fs num_consign
              auto_accept := rfl
    rw [hstep, List.filter_append, ih, List.append_nil]
    by_cases hmem : f.uuid ∈ registered_token.map (·.uuid)
    · simp [hmem]
    · have hne : f.uuid ≠ u := fun he => hmem (he ▸ hu)
      cases hinfo : f.eventInfo with
      | none => simp [hmem, hinfo]
      | some info => simp [hmem, hinfo, filter_disseminateOne_ne f.uuid u _ _ hne]

/-- Closed instance of `disseminate_skips_registered`: re-disseminating a
registered uuid emits no action for it. -/
theorem disseminate_skips_registered_witness :
    (disseminate_token_from_mispdata [⟨"u1", "0x1", "title", 10, "0xOP", 1⟩]
        [⟨"u1", some "info"⟩, ⟨"u2", some "info"⟩] 1 true).filter
      (fun a => a.uuidOf == "u1") = [] :=
  disseminate_skips_registered [⟨"u1", "0x1", "title", 10, "0xOP", 1⟩]
    [⟨"u1", some "info"⟩, ⟨"u2", some "info"⟩] 1 true "u1" (by simp)

/-- C6: for `send` and `burn`, a transaction receipt whose status is not 1
raises `ValueError` and the `Player` wrapper never reaches its cache
reconciliation (the cached balance is untouched); a status-1 receipt
raises nothing and the wrapper refreshes the cached balance via
`update_balanceof_myself`. -/
theorem token_tx_status_guard (tx_receipt : TxReceipt)
    (token_address target_address : String) (amount : Int)
    (h1 : token_address ≠ "") (h2 : target_address ≠ "") (h3 : amount > 0) :
    (tx_receipt.status ≠ 1 →
      Player.send_token tx_receipt token_address target_address amount
        = .error "Transaction failed: send" ∧
      Player.burn_token tx_receipt token_address amount
        = .error "Transaction failed: burn") ∧
    (tx_receipt.status = 1 →
      Player.send_token tx_receipt token_address target_address amount
        = .ok [PlayerAction.updateBalance token_address] ∧
      Player.burn_token tx_receipt token_address amount
        = .ok [PlayerAction.updateBalance token_address]) := by
  by_cases hs : tx_receipt.status = 1 <;>
    simp [Player.send_token, Player.burn_token, CTIToken.send_token,
      CTIToken.burn_token, h1, h2, h3, hs]

/-- Closed instance of `token_tx_status_guard`: a status-0 receipt makes
`send` raise, a status-1 receipt makes it refresh the balance. -/
theorem token_tx_status_guard_witness :
    Player.send_token ⟨0, 21000⟩ "0xT" "0xU" 1 = .error "Transaction failed: send" ∧
    Player.send_token ⟨1, 21000⟩ "0xT" "0xU" 1
      = .ok [PlayerAction.updateBalance "0xT"] :=
  ⟨((token_tx_status_guard ⟨0, 21000⟩ "0xT" "0xU" 1 (by decide) (by decide)
      (by decide)).1 (by decide)).1,
   ((token_tx_status_guard ⟨1, 21000⟩ "0xT" "0xU" 1 (by decide) (by decide)
      (by decide)).2 rfl).1⟩

/-- C7: on a well-formed payload whose artifact download raises, the seeker
writes the sidecar `<token_address>.url` containing exactly the original
download URL and still returns success flag `True`; and the flag is
`False` exactly for malformed or empty payloads. -/
theorem receive_challenge_answer_recovers (fs : FileSys)
    (download_url token_address errmsg : String) (data : AnswerData)
    (dl : Except String String)
    (hurl : download_url ≠ "") (htok : token_address ≠ "") :
    ((receive_challenge_answer fs ⟨some download_url, some token_address⟩
        (.error errmsg)).1 = true ∧
     readFile (receive_challenge_answer fs ⟨some download_url, some token_address⟩
        (.error errmsg)).2
       (DOWNLOADED_CTI_PATH ++ "/" ++ token_address ++ ".url")
       = some download_url) ∧
    ((receive_challenge_answer fs data dl).1 = false
      ↔ wellFormedAnswer data = false) := by
  constructor
  · have hu : ¬download_url.length = 0 := fun h0 =>
      hurl (String.ext (List.length_eq_zero.mp h0))
    have ht : ¬token_address.length = 0 := fun h0 =>
      htok (String.ext (List.length_eq_zero.mp h0))
    constructor
    · simp [receive_challenge_answer, hu, ht]
    · simp [receive_challenge_answer, hu, ht, save_download_url, writeFile, readFile]
  · obtain ⟨du, ta⟩ := data
    cases du with
    | none => simp [receive_challenge_answer, wellFormedAnswer]
    | some u =>
      cases ta with
      | none => simp [receive_challenge_answer, wellFormedAnswer]
      | some t =>
        by_cases hz : u.length = 0 ∨ t.length = 0
        · simp only [receive_challenge_answer, wellFormedAnswer, if_pos hz]
          rcases hz with hz | hz <;> simp [hz]
        · push_neg at hz
          cases dl <;>
            simp [receive_challenge_answer, wellFormedAnswer, hz.1, hz.2]

/-- Closed instance of `receive_challenge_answer_recovers`: a failed
download leaves the URL in the sidecar file and returns `True`, while an
empty payload returns `False`. -/
theorem receive_challenge_answer_recovers_witness :
    ((receive_challenge_answer [] ⟨some "http://h:50080/0xA", some "0xA"⟩
        (.error "connection refused")).1 = true ∧
     readFile (receive_challenge_answer [] ⟨some "http://h:50080/0xA", some "0xA"⟩
        (.error "connection refused")).2
       (DOWNLOADED_CTI_PATH ++ "/" ++ "0xA" ++ ".url")
       = some "http://h:50080/0xA") ∧
    ((receive_challenge_answer [] ⟨none, none⟩ (.ok "bytes")).1 = false
      ↔ wellFormedAnswer ⟨none, none⟩ = false) :=
  receive_challenge_answer_recovers [] "http://h:50080/0xA" "0xA"
    "connection refused" ⟨none, none⟩ (.ok "bytes") (by decide) (by decide)

/-- C8 counterexample: the empty string — the default value of every address
field of `config.ini` — is returned as absent with no log output at all,
against the claim that every non-checksum input logs a warning. -/
theorem fix_config_address_counterexample :
    (fix_config_address ⟨fun _ => false, fun _ => false⟩ (some "")).1 = none ∧
    (fix_config_address ⟨fun _ => false, fun _ => false⟩ (some "")).2 = [] := by
  constructor <;> rfl

/-- C8 (amended): the validator returns the value unchanged exactly when it
is a valid mixed-case checksum address; every other input is treated as
absent (`None`), and a warning is logged exactly for the non-blank
inputs that fail the checksum test — a missing, empty or
whitespace-only value is dropped silently. It never raises (it is a
total function into `Option`). -/
theorem fix_config_address_spec (w : Web3Addr) (hw : w.valid)
    (target : Option String) :
    (fix_config_address w target).1
      = (match target with
         | none => none
         | some t => if w.isChecksumAddress t then some t else none) ∧
    ((fix_config_address w target).2 ≠ [] ↔
      ∃ t, target = some t ∧ pyStrip t ≠ "" ∧ w.isChecksumAddress t = false) := by
  cases target with
  | none => simp [fix_config_address]
  | some t =>
    by_cases hb : pyStrip t = ""
    · have hc : w.isChecksumAddress t = false := by
        by_contra h
        exact hw t (by simpa using h) hb
      simp [fix_config_address, hb, hc]
    · by_cases hc : w.isChecksumAddress t
      · simp [fix_config_address, hb, hc]
      · by_cases ha : w.isAddress t <;>
          simp [fix_config_address, hb, hc, ha]

/-- Closed instance of `fix_config_address_spec`: a checksum address passes
through unchanged, and a non-checksummed one is dropped with a
warning. -/
theorem fix_config_address_spec_witness :
    (fix_config_address ⟨fun s => s == "0xABC", fun _ => true⟩
      (some "0xABC")).1 = some "0xABC" ∧
    (fix_config_address ⟨fun s => s == "0xABC", fun _ => true⟩
      (some "0xabc")).2 ≠ [] := by
  have hw : Web3Addr.valid ⟨fun s => s == "0xABC", fun _ => true⟩ := by
    intro s hs
    have h : s = "0xABC" := by simpa using hs
    subst h
    decide
  constructor
  · have h := (fix_config_address_spec ⟨fun s => s == "0xABC", fun _ => true⟩ hw
      (some "0xABC")).1
    simpa using h
  · have h := (fix_config_address_spec ⟨fun s => s == "0xABC", fun _ => true⟩ hw
      (some "0xabc")).2
    rw [h]
    exact ⟨"0xabc", rfl, by decide, by decide⟩

/-- C9: once the asset publisher has completed binding, the download URL the
solver constructs is `http://<host>:<port>/<token_address>` where the
port component is exactly the port the server bound. -/
theorem create_misp_download_url_uses_bound_port (status : Nat → PortStatus)
    (hostname identity cti_address : String) (p : Nat)
    (h : LocalHttpServer.run status = .ok p) :
    ∃ fileserver, LocalHttpServer.afterBind status identity = .ok fileserver ∧
      fileserver.port = p ∧
      create_misp_download_url hostname fileserver cti_address
        = "http://" ++ hostname ++ ":" ++ toString p ++ "/" ++ cti_address := by
  refine ⟨⟨identity, p⟩, ?_, rfl, rfl⟩
  simp [LocalHttpServer.afterBind, h]

/-- Closed instance of `create_misp_download_url_uses_bound_port`: with
every port free the server binds 50080 and the URL carries 50080. -/
theorem create_misp_download_url_uses_bound_port_witness :
    ∃ fileserver,
      LocalHttpServer.afterBind (fun _ => PortStatus.free) "0xOP" = .ok fileserver ∧
      fileserver.port = 50080 ∧
      create_misp_download_url "myhost" fileserver "0xAA"
        = "http://" ++ "myhost" ++ ":" ++ toString 50080 ++ "/" ++ "0xAA" :=
  create_misp_download_url_uses_bound_port (fun _ => PortStatus.free)
    "myhost" "0xOP" "0xAA" 50080 rfl

/-- Filtering out dashes does nothing to a sublist of a dash-free list. -/
theorem filter_ne_dash_of_subset (s l : List Char) (hnd : '-' ∉ s) (hsub : l ⊆ s) :
    l.filter (fun c => c ≠ '-') = l := by
  apply List.filter_eq_self.mpr
  intro a ha
  simp only [ne_eq, decide_eq_true_eq]
  exact fun h => hnd (h ▸ hsub ha)

/-- C10 counterexample: on the 32-character string made of dashes,
`uuid_to_asset_id ∘ uuid_formatter` strips the original characters too
(Python `replace('-', '')` removes every dash, not only the four
inserted ones), so the round trip does not return the input with
`#test` appended. -/
theorem uuid_roundtrip_counterexample :
    uuid_to_asset_id (uuid_formatter (List.replicate 32 '-')) = .ok "#test".toList ∧
    ("#test".toList : List Char) ≠ List.replicate 32 '-' ++ "#test".toList := by
  constructor
  · rfl
  · decide

/-- C10 (amended): for every dash-free string of length exactly 32,
`uuid_formatter` produces the 36-character 8-4-4-4-12 dashed form and
`uuid_to_asset_id` of it returns the input with `#test` appended (a
dash inside the input would itself be removed); `uuid_formatter`
returns the empty string off length 32, and `uuid_to_asset_id` raises
`ValueError` off length 36. -/
theorem uuid_roundtrip (s : List Char) (h32 : s.length = 32) (hnd : '-' ∉ s) :
    (uuid_formatter s).length = 36 ∧
    uuid_to_asset_id (uuid_formatter s) = .ok (s ++ "#test".toList) ∧
    (∀ t : List Char, t.length ≠ 32 → uuid_formatter t = []) ∧
    (∀ t : List Char, t.length ≠ 36 →
      uuid_to_asset_id t = .error "The uuid cannot translation.") := by
  have hfmt : uuid_formatter s = s.take 8 ++ ['-'] ++ (s.drop 8).take 4 ++ ['-'] ++
      (s.drop 12).take 4 ++ ['-'] ++ (s.drop 16).take 4 ++ ['-'] ++ s.drop 20 := by
    simp [uuid_formatter, h32]
  have hlen : (uuid_formatter s).length = 36 := by
    rw [hfmt]
    simp [h32]
  refine ⟨hlen, ?_, ?_, ?_⟩
  · have h8 : s.take 8 ++ (s.drop 8).take 4 = s.take 12 := by
      rw [show (12 : Nat) = 8 + 4 from rfl, List.take_add]
    have h12 : s.take 12 ++ (s.drop 12).take 4 = s.take 16 := by
      rw [show (16 : Nat) = 12 + 4 from rfl, List.take_add]
    have h16 : s.take 16 ++ (s.drop 16).take 4 = s.take 20 := by
      rw [show (20 : Nat) = 16 + 4 from rfl, List.take_add]
    have hf8 : (s.take 8).filter (fun c => c ≠ '-') = s.take 8 :=
      filter_ne_dash_of_subset s _ hnd (List.take_subset 8 s)
    have hfa : ((s.drop 8).take 4).filter (fun c => c ≠ '-') = (s.drop 8).take 4 :=
      filter_ne_dash_of_subset s _ hnd
        (fun a ha => List.drop_subset 8 s (List.take_subset 4 _ ha))
    have hfb : ((s.drop 12).take 4).filter (fun c => c ≠ '-') = (s.drop 12).take 4 :=
      filter_ne_dash_of_subset s _ hnd
        (fun a ha => List.drop_subset 12 s (List.take_subset 4 _ ha))
    have hfc : ((s.drop 16).take 4).filter (fun c => c ≠ '-') = (s.drop 16).take 4 :=
      filter_ne_dash_of_subset s _ hnd
        (fun a ha => List.drop_subset 16 s (List.take_subset 4 _ ha))
    have hfd : (s.drop 20).filter (fun c => c ≠ '-') = s.drop 20 :=
      filter_ne_dash_of_subset s _ hnd (List.drop_subset 20 s)
    rw [uuid_to_asset_id, if_neg (by simp [hlen])]
    congr 1
    rw [hfmt]
    simp only [List.filter_append, hf8, hfa, hfb, hfc, hfd,
      List.filter_cons, List.filter_nil]
    norm_num
    rw [← List.append_assoc, ← List.append_assoc, ← List.append_assoc, h8, h12, h16,
      ← List.append_assoc, List.take_append_drop]
  · intro t ht
    simp [uuid_formatter, ht]
  · intro t ht
    simp [uuid_to_asset_id, ht]

/-- Closed instance of `uuid_roundtrip` on a 32-character dash-free
string. -/
theorem uuid_roundtrip_witness :
    uuid_to_asset_id (uuid_formatter (List.replicate 32 'a'))
      = .ok (List.replicate 32 'a' ++ "#test".toList) :=
  (uuid_roundtrip (List.replicate 32 'a') (by simp) (by simp)).2.1

end Metemcyber
